import Mathlib

/-!
Verification of the argocd-operator reconciliation core.

The Go sources of `pkg/controller/argocd/role.go` are embedded as pure Lean
functions over an explicit Kubernetes client state (a store of Role and
ClusterRole objects together with injectable API-call failures).  Deployment
reconciliation (Dex, repo-server, server) and the proxy environment injector,
whose Go sources are exercised only by the repository's tests, are modelled
from the specification text and validated against the concrete expectations
of those tests.
-/

namespace ArgoCDOperator

/-- A single RBAC policy rule; the rule contents are carried opaquely as the
reconcilers never inspect them, only copy them wholesale. -/
structure PolicyRule where
  apiGroups : List String
  resources : List String
  verbs : List String
deriving Repr, DecidableEq

/-- An environment-variable entry (`corev1.EnvVar`): an ordered name/value pair. -/
structure EnvVar where
  name : String
  value : String
deriving Repr, DecidableEq

/-- A volume mount (`corev1.VolumeMount`), restricted to name and mount path. -/
structure VolumeMount where
  name : String
  mountPath : String
deriving Repr, DecidableEq

/-- A container port (`corev1.ContainerPort`), restricted to name and port number. -/
structure ContainerPort where
  name : String
  containerPort : Nat
deriving Repr, DecidableEq

/-- A container spec (`corev1.Container`), restricted to the fields the
repository's deployment reconcilers and tests exercise. -/
structure Container where
  name : String
  image : String
  command : List String
  ports : List ContainerPort
  volumeMounts : List VolumeMount
  env : List EnvVar
deriving Repr, DecidableEq

/-- A pod template spec (`corev1.PodSpec`), with volumes carried by name. -/
structure PodSpec where
  volumes : List String
  initContainers : List Container
  containers : List Container
  serviceAccountName : String
deriving Repr, DecidableEq

/-- A Deployment object (`appsv1.Deployment`), keyed by (name, namespace)
and carrying its pod template spec. -/
structure Deployment where
  name : String
  ns : String
  podSpec : PodSpec
deriving Repr, DecidableEq

/-- The ArgoCD custom resource, restricted to the fields the embedded
reconcilers read (`cr.Name`, `cr.Namespace`, and the deployment spec
fields used by the modelled deployment reconcilers). -/
structure ArgoCD where
  name : String
  ns : String
  specImage : String
  specVersion : String
  dexImage : String
  dexVersion : String
  serverInsecure : Bool
  repoPluginContainers : List Container
deriving Repr, DecidableEq

/-- A namespaced RBAC Role object (`rbac/v1.Role`), restricted to the fields
`role.go` reads or writes.  `ownerRef` records whether a controller owner
reference to the custom resource has been set on the object. -/
structure Role where
  name : String
  ns : String
  labels : List (String × String)
  annotations : List (String × String)
  rules : List PolicyRule
  ownerRef : Bool
deriving Repr, DecidableEq

/-- A cluster-scoped RBAC ClusterRole object (`rbac/v1.ClusterRole`). -/
structure ClusterRole where
  name : String
  labels : List (String × String)
  annotations : List (String × String)
  rules : List PolicyRule
  ownerRef : Bool
deriving Repr, DecidableEq

/-- The process environment, restricted to the variables the reconcilers
read: `DISABLE_DEX` (raw string value) and the already-split namespace
allow-list from `ARGOCD_CLUSTER_CONFIG_NAMESPACES`. -/
structure Env where
  disableDexVal : String
  clusterConfigNamespaces : List String
deriving Repr, DecidableEq

/-- Modelled from the spec: `isDexDisabled` reads the `DISABLE_DEX`
environment flag; the Dex feature is globally disabled when it is set to
`"true"` (the value the repository's tests set). -/
def isDexDisabled (env : Env) : Bool :=
  env.disableDexVal == "true"

/-- Modelled from the spec: `allowedNamespace` checks the custom resource's
namespace for membership in the operator-wide allow-list of namespaces
permitted to hold cluster-scoped configuration. -/
def allowedNamespace (ns : String) (clusterConfigNamespaces : List String) : Bool :=
  clusterConfigNamespaces.contains ns

/-- Modelled from the spec: `labelsForCluster` derives a deterministic label
set from the instance; the concrete key set is immaterial to the claims. -/
def labelsForCluster (cr : ArgoCD) : List (String × String) :=
  [("app.kubernetes.io/managed-by", cr.name)]

/-- Modelled from the spec: `annotationsForCluster` derives deterministic
annotations from the instance. -/
def annotationsForCluster (cr : ArgoCD) : List (String × String) :=
  [("argocds.argoproj.io/name", cr.name), ("argocds.argoproj.io/namespace", cr.ns)]

/-- Component-name constants from `role.go`. -/
def applicationController : String := "argocd-application-controller"

/-- `server` component-name constant from `role.go`. -/
def serverComponent : String := "argocd-server"

/-- `redisHa` component-name constant from `role.go`. -/
def redisHa : String := "argocd-redis-ha"

/-- `dexServer` component-name constant from `role.go`. -/
def dexServer : String := "argocd-dex-server"

/-- `generateResourceName` from `role.go`: `cr.Name + "-" + argoComponentName`. -/
def generateResourceName (argoComponentName : String) (cr : ArgoCD) : String :=
  cr.name ++ "-" ++ argoComponentName

/-- `GenerateUniqueResourceName` from `role.go`:
`cr.Name + "-" + cr.Namespace + "-" + argoComponentName`. -/
def GenerateUniqueResourceName (argoComponentName : String) (cr : ArgoCD) : String :=
  cr.name ++ "-" ++ cr.ns ++ "-" ++ argoComponentName

/-- `newRole` from `role.go`: a fresh Role in the custom resource's own
namespace, with deterministic name and labels and the given rules. -/
def newRole (name : String) (rules : List PolicyRule) (cr : ArgoCD) : Role :=
  { name := generateResourceName name cr
    ns := cr.ns
    labels := labelsForCluster cr
    annotations := []
    rules := rules
    ownerRef := false }

/-- `newClusterRole` from `role.go`: a fresh ClusterRole with the unique
cluster-scoped name, labels, annotations and the given rules. -/
def newClusterRole (name : String) (rules : List PolicyRule) (cr : ArgoCD) : ClusterRole :=
  { name := GenerateUniqueResourceName name cr
    labels := labelsForCluster cr
    annotations := annotationsForCluster cr
    rules := rules
    ownerRef := false }

/-- Result of a `client.Get` for a Role: the object, a not-found error, or
another API error carrying its message. -/
inductive GetRole where
  | ok (r : Role)
  | notFound
  | apiErr (msg : String)
deriving Repr, DecidableEq

/-- Result of a `client.Get` for a ClusterRole. -/
inductive GetClusterRole where
  | ok (r : ClusterRole)
  | notFound
  | apiErr (msg : String)
deriving Repr, DecidableEq

/-- The typed Kubernetes client state for Role objects: the live store, the
list of managed namespaces the `List` call returns (or an injected `List`
failure), and injectable failures for each API verb, keyed by the object's
(name, namespace). -/
structure RoleClient where
  store : List Role
  managedNamespaces : List String
  listErr : Option String
  getErr : String → String → Option String
  createErr : String → String → Option String
  updateErr : String → String → Option String
  deleteErr : String → String → Option String

/-- `client.Get` for Roles: an injected API error wins; otherwise the store
is searched by (name, namespace). -/
def RoleClient.get (c : RoleClient) (name ns : String) : GetRole :=
  match c.getErr name ns with
  | some m => .apiErr m
  | none =>
    match c.store.find? (fun r => r.name == name && r.ns == ns) with
    | some r => .ok r
    | none => .notFound

/-- `client.Create` for Roles: on success the object is appended to the store. -/
def RoleClient.create (c : RoleClient) (r : Role) : Except String RoleClient :=
  match c.createErr r.name r.ns with
  | some m => .error m
  | none => .ok { c with store := c.store ++ [r] }

/-- `client.Update` for Roles: on success the stored object with the same
(name, namespace) is replaced wholesale. -/
def RoleClient.update (c : RoleClient) (r : Role) : Except String RoleClient :=
  match c.updateErr r.name r.ns with
  | some m => .error m
  | none =>
    .ok { c with store := c.store.map (fun x => if x.name == r.name && x.ns == r.ns then r else x) }

/-- `client.Delete` for Roles: on success the object with the same
(name, namespace) is removed from the store. -/
def RoleClient.delete (c : RoleClient) (r : Role) : Except String RoleClient :=
  match c.deleteErr r.name r.ns with
  | some m => .error m
  | none =>
    .ok { c with store := c.store.filter (fun x => !(x.name == r.name && x.ns == r.ns)) }

/-- The typed client state for ClusterRole objects. -/
structure ClusterRoleClient where
  store : List ClusterRole
  getErr : String → Option String
  createErr : String → Option String
  updateErr : String → Option String
  deleteErr : String → Option String

/-- `client.Get` for ClusterRoles. -/
def ClusterRoleClient.get (c : ClusterRoleClient) (name : String) : GetClusterRole :=
  match c.getErr name with
  | some m => .apiErr m
  | none =>
    match c.store.find? (fun r => r.name == name) with
    | some r => .ok r
    | none => .notFound

/-- `client.Create` for ClusterRoles. -/
def ClusterRoleClient.create (c : ClusterRoleClient) (r : ClusterRole) :
    Except String ClusterRoleClient :=
  match c.createErr r.name with
  | some m => .error m
  | none => .ok { c with store := c.store ++ [r] }

/-- `client.Update` for ClusterRoles. -/
def ClusterRoleClient.update (c : ClusterRoleClient) (r : ClusterRole) :
    Except String ClusterRoleClient :=
  match c.updateErr r.name with
  | some m => .error m
  | none => .ok { c with store := c.store.map (fun x => if x.name == r.name then r else x) }

/-- `client.Delete` for ClusterRoles. -/
def ClusterRoleClient.delete (c : ClusterRoleClient) (r : ClusterRole) :
    Except String ClusterRoleClient :=
  match c.deleteErr r.name with
  | some m => .error m
  | none => .ok { c with store := c.store.filter (fun x => !(x.name == r.name)) }

/-- A mutating API call issued by a reconciler, recorded in order. -/
inductive WriteAction where
  | createRole (r : Role)
  | updateRole (r : Role)
  | deleteRole (r : Role)
  | createClusterRole (r : ClusterRole)
  | updateClusterRole (r : ClusterRole)
  | deleteClusterRole (r : ClusterRole)
deriving Repr, DecidableEq

/-- The wrapped lookup-failure message of `reconcileRole` (role.go line 112). -/
def wrapRoleLookupErr (name msg : String) : String :=
  "failed to reconcile the role for the service account associated with " ++ name ++ " : " ++ msg

/-- The wrapped lookup-failure message of `reconcileClusterRole` (role.go line 155). -/
def wrapClusterRoleLookupErr (name msg : String) : String :=
  "failed to reconcile the cluster role for the service account associated with " ++ name
    ++ " : " ++ msg

/-- Outcome of processing one managed namespace in `reconcileRole`'s loop:
the client after any API calls, the roles appended to the accumulator, the
write calls issued, and the error (if any) that aborts the pass. -/
structure StepOut where
  client : RoleClient
  newRoles : List Role
  trace : List WriteAction
  err : Option String

/-- The body of `reconcileRole`'s per-namespace loop (role.go lines 102-137):
build the desired Role, run the reconciler hook, retarget to the managed
namespace, then branch on found/not-found and the Dex-disabled gate. -/
def reconcileRoleStep (hook : Role → Except String Role) (env : Env) (name : String)
    (rules : List PolicyRule) (cr : ArgoCD) (c : RoleClient) (nsName : String) : StepOut :=
  let role0 := newRole name rules cr
  match hook role0 with
  | .error e => ⟨c, [], [], some e⟩
  | .ok role1 =>
    let role := { role1 with ns := nsName }
    match c.get role.name role.ns with
    | .apiErr m => ⟨c, [], [], some (wrapRoleLookupErr name m)⟩
    | .notFound =>
      if name == dexServer && isDexDisabled env then
        ⟨c, [role], [], none⟩
      else
        let role' := { role with ownerRef := true }
        match c.create role' with
        | .error m => ⟨c, [role'], [.createRole role'], some m⟩
        | .ok c' => ⟨c', [role'], [.createRole role'], none⟩
    | .ok existing =>
      if name == dexServer && isDexDisabled env then
        match c.delete existing with
        | .error m => ⟨c, [], [.deleteRole existing], some m⟩
        | .ok c' => ⟨c', [], [.deleteRole existing], none⟩
      else
        let updated := { existing with rules := role.rules }
        match c.update updated with
        | .error m => ⟨c, [], [.updateRole updated], some m⟩
        | .ok c' => ⟨c', [updated], [.updateRole updated], none⟩

/-- The full result of `reconcileRole`: the client after all API calls of
the pass, the ordered write trace, the error (if the pass aborted), and the
returned slice of Roles (empty on abort, as the Go function returns nil). -/
structure RoleReconcileResult where
  client : RoleClient
  trace : List WriteAction
  err : Option String
  roles : List Role

/-- The namespace loop of `reconcileRole`, threading client state, the roles
accumulator and the write trace; an erroring step aborts the remainder. -/
def reconcileRoleLoop (hook : Role → Except String Role) (env : Env) (name : String)
    (rules : List PolicyRule) (cr : ArgoCD) :
    List String → RoleClient → List Role → List WriteAction → RoleReconcileResult
  | [], c, acc, tr => ⟨c, tr, none, acc⟩
  | nsName :: rest, c, acc, tr =>
    let s := reconcileRoleStep hook env name rules cr c nsName
    match s.err with
    | some e => ⟨s.client, tr ++ s.trace, some e, []⟩
    | none =>
      reconcileRoleLoop hook env name rules cr rest s.client (acc ++ s.newRoles) (tr ++ s.trace)

/-- `reconcileRole` from `role.go`: list the managed namespaces, then run
the per-namespace loop. -/
def reconcileRole (hook : Role → Except String Role) (env : Env) (name : String)
    (rules : List PolicyRule) (cr : ArgoCD) (c : RoleClient) : RoleReconcileResult :=
  match c.listErr with
  | some e => ⟨c, [], some e, []⟩
  | none => reconcileRoleLoop hook env name rules cr c.managedNamespaces c [] []

/-- The full result of `reconcileClusterRole`: client after the call, write
trace, the returned object pointer (`none` = Go `nil`), and the returned
error.  The Go function can return a non-nil object together with a non-nil
error (create/update branches), so object and error are separate fields. -/
structure ClusterRoleReconcileResult where
  client : ClusterRoleClient
  trace : List WriteAction
  obj : Option ClusterRole
  err : Option String

/-- `reconcileClusterRole` from `role.go` (lines 141-171): compute the
allow-list gate, build the desired ClusterRole, run the hook, then branch on
found/not-found and allowed/not-allowed. -/
def reconcileClusterRole (hook : ClusterRole → Except String ClusterRole) (env : Env)
    (name : String) (rules : List PolicyRule) (cr : ArgoCD) (c : ClusterRoleClient) :
    ClusterRoleReconcileResult :=
  let allowed := allowedNamespace cr.ns env.clusterConfigNamespaces
  let clusterRole0 := newClusterRole name rules cr
  match hook clusterRole0 with
  | .error e => ⟨c, [], none, some e⟩
  | .ok clusterRole =>
    match c.get clusterRole.name with
    | .apiErr m => ⟨c, [], none, some (wrapClusterRoleLookupErr name m)⟩
    | .notFound =>
      if !allowed then
        ⟨c, [], none, none⟩
      else
        let cRole := { clusterRole with ownerRef := true }
        match c.create cRole with
        | .error m => ⟨c, [.createClusterRole cRole], some cRole, some m⟩
        | .ok c' => ⟨c', [.createClusterRole cRole], some cRole, none⟩
    | .ok existing =>
      if !allowed then
        match c.delete existing with
        | .error m => ⟨c, [.deleteClusterRole existing], none, some m⟩
        | .ok c' => ⟨c', [.deleteClusterRole existing], none, none⟩
      else
        let updated := { existing with rules := clusterRole.rules }
        match c.update updated with
        | .error m => ⟨c, [.updateClusterRole updated], some updated, some m⟩
        | .ok c' => ⟨c', [.updateClusterRole updated], some updated, none⟩

/-- Modelled from the spec: the canonical policy rule set for the
application controller; the rule contents are immaterial to the claims. -/
def policyRuleForApplicationController : List PolicyRule :=
  [⟨["*"], ["*"], ["*"]⟩]

/-- Modelled from the spec: the canonical policy rule set for the Dex server. -/
def policyRuleForDexServer : List PolicyRule :=
  [⟨[""], ["secrets", "configmaps"], ["get", "list", "watch"]⟩]

/-- Modelled from the spec: the canonical policy rule set for the server. -/
def policyRuleForServer : List PolicyRule :=
  [⟨[""], ["secrets", "configmaps"], ["create", "get", "list", "watch", "update", "delete"]⟩]

/-- Modelled from the spec: the canonical policy rule set for Redis HA. -/
def policyRuleForRedisHa (_cr : ArgoCD) : List PolicyRule :=
  [⟨[""], ["endpoints"], ["get"]⟩]

/-- Modelled from the spec: the canonical cluster-scoped rule set for the server. -/
def policyRuleForServerClusterRole : List PolicyRule :=
  [⟨["*"], ["*"], ["get", "list", "watch"]⟩]

/-- The combined cluster state threaded through `reconcileRoles`. -/
structure Cluster where
  roleClient : RoleClient
  crClient : ClusterRoleClient

/-- The result of `reconcileRoles`: the final cluster state, the returned
`*v1.Role` (Go `nil` = `none`), and the returned error. -/
structure RolesResult where
  cluster : Cluster
  obj : Option Role
  err : Option String

/-- `reconcileRoles` from `role.go` (lines 59-85): reconcile the namespaced
Roles for the four components in order, then the two ClusterRoles; any error
aborts immediately.  Every return path returns a nil Role pointer: the named
return `role` is never assigned and the success path returns `nil, nil`. -/
def reconcileRoles (hook : Role → Except String Role)
    (hookCR : ClusterRole → Except String ClusterRole) (env : Env) (cr : ArgoCD)
    (cl : Cluster) : RolesResult :=
  let r1 := reconcileRole hook env applicationController policyRuleForApplicationController cr
    cl.roleClient
  match r1.err with
  | some e => ⟨⟨r1.client, cl.crClient⟩, none, some e⟩
  | none =>
    let r2 := reconcileRole hook env dexServer policyRuleForDexServer cr r1.client
    match r2.err with
    | some e => ⟨⟨r2.client, cl.crClient⟩, none, some e⟩
    | none =>
      let r3 := reconcileRole hook env serverComponent policyRuleForServer cr r2.client
      match r3.err with
      | some e => ⟨⟨r3.client, cl.crClient⟩, none, some e⟩
      | none =>
        let r4 := reconcileRole hook env redisHa (policyRuleForRedisHa cr) cr r3.client
        match r4.err with
        | some e => ⟨⟨r4.client, cl.crClient⟩, none, some e⟩
        | none =>
          let c1 := reconcileClusterRole hookCR env applicationController
            policyRuleForApplicationController cr cl.crClient
          match c1.err with
          | some e => ⟨⟨r4.client, c1.client⟩, none, some e⟩
          | none =>
            let c2 := reconcileClusterRole hookCR env serverComponent
              policyRuleForServerClusterRole cr c1.client
            match c2.err with
            | some e => ⟨⟨r4.client, c2.client⟩, none, some e⟩
            | none => ⟨⟨r4.client, c2.client⟩, none, none⟩

/-- The process-level proxy environment values read by the proxy injector. -/
structure ProxyEnv where
  httpProxy : String
  httpsProxy : String
  noProxy : String
deriving Repr, DecidableEq

/-- The characters of a string lowered case-by-case (the character-level
semantics of Go's `strings.ToLower` for the ASCII names involved). -/
def lowerChars (s : String) : List Char := s.data.map Char.toLower

/-- Whether an environment-variable name is already present in a list under
any case variant (case-insensitive membership). -/
def containsEnvVarCI (vars : List EnvVar) (name : String) : Bool :=
  vars.any (fun v => lowerChars v.name == lowerChars name)

/-- The three proxy candidates in the order the injector considers them:
`HTTP_PROXY`, `HTTPS_PROXY`, `no_proxy` with their process values. -/
def proxyCandidates (p : ProxyEnv) : List EnvVar :=
  [⟨"HTTP_PROXY", p.httpProxy⟩, ⟨"HTTPS_PROXY", p.httpsProxy⟩, ⟨"no_proxy", p.noProxy⟩]

/-- Modelled from the spec: `proxyEnvVars` — given an existing ordered
environment-variable list, appends (never prepends, overwrites or reorders)
each of `HTTP_PROXY`, `HTTPS_PROXY`, `no_proxy`, in that order, when its
process value is non-empty and its name is not already present in the input
under any case variant. -/
def proxyEnvVars (p : ProxyEnv) (vars : List EnvVar) : List EnvVar :=
  vars ++ (proxyCandidates p).filter
    (fun c => !(c.value == "") && !containsEnvVarCI vars c.name)

/-- Modelled from the spec: default ArgoCD container image repository used
when the custom resource carries no override. -/
def argoDefaultImage : String := "argoproj/argocd"

/-- Modelled from the spec: default ArgoCD image tag. -/
def argoDefaultVersion : String := "v1.7.7"

/-- Modelled from the spec: default Dex image repository. -/
def dexDefaultImage : String := "quay.io/dexidp/dex"

/-- Modelled from the spec: default Dex image tag. -/
def dexDefaultVersion : String := "v2.22.0"

/-- Modelled from the spec: `getArgoContainerImage` — the container image is
derived from the custom resource's image/version override fields, falling
back to defaults, joined as `image:tag`. -/
def getArgoContainerImage (cr : ArgoCD) : String :=
  (if cr.specImage == "" then argoDefaultImage else cr.specImage) ++ ":"
    ++ (if cr.specVersion == "" then argoDefaultVersion else cr.specVersion)

/-- Modelled from the spec: `getDexContainerImage` — the Dex image derived
from the Dex override fields, falling back to defaults. -/
def getDexContainerImage (cr : ArgoCD) : String :=
  (if cr.dexImage == "" then dexDefaultImage else cr.dexImage) ++ ":"
    ++ (if cr.dexVersion == "" then dexDefaultVersion else cr.dexVersion)

/-- Look up a Deployment by (name, namespace); a `none` result models a
not-found error from `client.Get`. -/
def findDeployment (store : List Deployment) (name ns : String) : Option Deployment :=
  store.find? (fun d => d.name == name && d.ns == ns)

/-- The Dex Deployment's deterministic name. -/
def dexDeploymentName (cr : ArgoCD) : String := cr.name ++ "-dex-server"

/-- Modelled from the spec: the canonical Dex pod spec, matching the
expected spec asserted by the repository's Dex reconciliation tests
(copyutil init container sharing a `static-files` volume with the dex
container), with the proxy injector applied to every container. -/
def canonicalDexPodSpec (p : ProxyEnv) (cr : ArgoCD) : PodSpec :=
  { volumes := ["static-files"]
    initContainers := [{
      name := "copyutil"
      image := getArgoContainerImage cr
      command := ["cp", "-n", "/usr/local/bin/argocd", "/shared/argocd-dex"]
      ports := []
      volumeMounts := [⟨"static-files", "/shared"⟩]
      env := proxyEnvVars p [] }]
    containers := [{
      name := "dex"
      image := getDexContainerImage cr
      command := ["/shared/argocd-dex", "rundex"]
      ports := [⟨"http", 5556⟩, ⟨"grpc", 5557⟩]
      volumeMounts := [⟨"static-files", "/shared"⟩]
      env := proxyEnvVars p [] }]
    serviceAccountName := generateResourceName dexServer cr }

/-- Modelled from the spec: the get-then-create-or-update convergence step
shared by the deployment reconcilers — create the Deployment with the
freshly built pod spec when absent, otherwise overwrite the existing one's
pod spec wholesale with the freshly built one. -/
def upsertDeployment (dname nsv : String) (spec : PodSpec) (store : List Deployment) :
    List Deployment :=
  match store.find? (fun d => d.name == dname && d.ns == nsv) with
  | some _ =>
    store.map (fun d =>
      if d.name == dname && d.ns == nsv then { d with podSpec := spec } else d)
  | none => store ++ [⟨dname, nsv, spec⟩]

/-- Modelled from the spec: `reconcileDexDeployment` — when the Dex feature
is globally disabled (`DISABLE_DEX=true`), any existing Dex Deployment is
deleted entirely and nothing is created; otherwise the Deployment is created
with the canonical spec, or an existing one has its pod spec overwritten
with the canonical spec. -/
def reconcileDexDeployment (p : ProxyEnv) (env : Env) (cr : ArgoCD)
    (store : List Deployment) : List Deployment :=
  let dname := dexDeploymentName cr
  if isDexDisabled env then
    store.filter (fun d => !(d.name == dname && d.ns == cr.ns))
  else
    upsertDeployment dname cr.ns (canonicalDexPodSpec p cr) store

/-- The default repo-server volume mounts, as asserted by the repository's
tests (`repoServerDefaultVolumeMounts`). -/
def repoServerDefaultVolumeMounts : List VolumeMount :=
  [⟨"ssh-known-hosts", "/app/config/ssh"⟩,
   ⟨"tls-certs", "/app/config/tls"⟩,
   ⟨"gpg-keys", "/app/config/gpg/source"⟩,
   ⟨"gpg-keyring", "/app/config/gpg/keys"⟩,
   ⟨"argocd-repo-server-tls", "/app/config/reposerver/tls"⟩,
   ⟨"var-files", "/var/run/argocd"⟩]

/-- The default repo-server volume names, as asserted by the repository's
tests (`repoServerDefaultVolumes`). -/
def repoServerDefaultVolumes : List String :=
  ["ssh-known-hosts", "tls-certs", "gpg-keys", "gpg-keyring",
   "argocd-repo-server-tls", "var-files"]

/-- Modelled from the spec: the default (first) repo-server container. -/
def repoServerContainer (cr : ArgoCD) : Container :=
  { name := "argocd-repo-server"
    image := getArgoContainerImage cr
    command := ["uid_entrypoint.sh", "argocd-repo-server",
      "--redis", cr.name ++ "-redis." ++ cr.ns ++ ".svc.cluster.local:6379"]
    ports := [⟨"server", 8081⟩, ⟨"metrics", 8084⟩]
    volumeMounts := repoServerDefaultVolumeMounts
    env := [] }

/-- Modelled from the spec: the canonical repo-server pod spec — the default
container followed by the user-supplied plugin sidecar containers, the whole
container list rebuilt fresh on each pass (so a changed plugin container is
replaced wholesale, never merged), with the proxy injector applied uniformly
to every container and init container. -/
def canonicalRepoPodSpec (p : ProxyEnv) (cr : ArgoCD) : PodSpec :=
  { volumes := repoServerDefaultVolumes
    initContainers := [{
      name := "copyutil"
      image := getArgoContainerImage cr
      command := ["cp", "-n", "/usr/local/bin/argocd", "/var/run/argocd/argocd-cmp-server"]
      ports := []
      volumeMounts := [⟨"var-files", "/var/run/argocd"⟩]
      env := proxyEnvVars p [] }]
    containers := (repoServerContainer cr :: cr.repoPluginContainers).map
      (fun c => { c with env := proxyEnvVars p c.env })
    serviceAccountName := generateResourceName "argocd-repo-server" cr }

/-- The repo-server Deployment's deterministic name. -/
def repoDeploymentName (cr : ArgoCD) : String := cr.name ++ "-repo-server"

/-- Modelled from the spec: `reconcileRepoDeployment` — create the
repo-server Deployment with the canonical pod spec, or overwrite an existing
one's pod spec with the freshly built canonical spec. -/
def reconcileRepoDeployment (p : ProxyEnv) (cr : ArgoCD)
    (store : List Deployment) : List Deployment :=
  upsertDeployment (repoDeploymentName cr) cr.ns (canonicalRepoPodSpec p cr) store

/-- Modelled from the spec: `getArgoServerCommand` — the server command-line
argument list; `--insecure` is included exactly when the spec toggle is set,
and precedes `--staticassets`.  The literal arguments match the expected
command asserted by the repository's server reconciliation tests. -/
def getArgoServerCommand (cr : ArgoCD) : List String :=
  ["argocd-server"]
    ++ (if cr.serverInsecure then ["--insecure"] else [])
    ++ ["--staticassets", "/shared/app",
        "--dex-server",
        "http://" ++ cr.name ++ "-dex-server." ++ cr.ns ++ ".svc.cluster.local:5556",
        "--repo-server",
        cr.name ++ "-repo-server." ++ cr.ns ++ ".svc.cluster.local:8081",
        "--redis",
        cr.name ++ "-redis." ++ cr.ns ++ ".svc.cluster.local:6379"]

/-- The default server volume names, as asserted by the repository's tests
(`serverDefaultVolumes`). -/
def serverDefaultVolumes : List String :=
  ["ssh-known-hosts", "tls-certs", "argocd-repo-server-tls"]

/-- The default server volume mounts, as asserted by the repository's tests
(`serverDefaultVolumeMounts`). -/
def serverDefaultVolumeMounts : List VolumeMount :=
  [⟨"ssh-known-hosts", "/app/config/ssh"⟩,
   ⟨"tls-certs", "/app/config/tls"⟩,
   ⟨"argocd-repo-server-tls", "/app/config/server/tls"⟩]

/-- Modelled from the spec: the canonical server pod spec, matching the
expected spec asserted by the repository's server reconciliation tests. -/
def canonicalServerPodSpec (p : ProxyEnv) (cr : ArgoCD) : PodSpec :=
  { volumes := serverDefaultVolumes
    initContainers := []
    containers := [{
      name := "argocd-server"
      image := getArgoContainerImage cr
      command := getArgoServerCommand cr
      ports := [⟨"", 8080⟩, ⟨"", 8083⟩]
      volumeMounts := serverDefaultVolumeMounts
      env := proxyEnvVars p [] }]
    serviceAccountName := generateResourceName serverComponent cr }

/-- The server Deployment's deterministic name. -/
def serverDeploymentName (cr : ArgoCD) : String := cr.name ++ "-server"

/-- Modelled from the spec: `reconcileServerDeployment` — create the server
Deployment with the canonical pod spec, or rebuild and overwrite the full
pod spec (including the complete command-args list) on an existing one. -/
def reconcileServerDeployment (p : ProxyEnv) (cr : ArgoCD)
    (store : List Deployment) : List Deployment :=
  upsertDeployment (serverDeploymentName cr) cr.ns (canonicalServerPodSpec p cr) store

/-! Concrete fixtures used by witnesses and counterexamples, matching the
repository's test setup (`makeTestArgoCD`: an instance named `argocd` in
namespace `argocd`; `restoreEnv`/`os.Setenv` for the environment). -/

/-- The identity reconciler hook for Roles (no registered callbacks). -/
def hookId : Role → Except String Role := fun r => .ok r

/-- The identity reconciler hook for ClusterRoles. -/
def hookCRId : ClusterRole → Except String ClusterRole := fun r => .ok r

/-- An injected-failure table with no failures, keyed by (name, namespace). -/
def noFail2 : String → String → Option String := fun _ _ => none

/-- An injected-failure table with no failures, keyed by name. -/
def noFail1 : String → Option String := fun _ => none

/-- The test custom resource: instance `argocd` in namespace `argocd`. -/
def crTest : ArgoCD := ⟨"argocd", "argocd", "", "", "", "", false, []⟩

/-- Environment with Dex enabled and an empty cluster-config allow-list. -/
def envEnabled : Env := ⟨"", []⟩

/-- Environment with `DISABLE_DEX=true`. -/
def envDexDisabled : Env := ⟨"true", []⟩

/-- A Role client with empty store, one managed namespace `argocd`, and no
injected failures. -/
def roleClientTest : RoleClient := ⟨[], ["argocd"], none, noFail2, noFail2, noFail2, noFail2⟩

/-- A ClusterRole client with empty store and no injected failures. -/
def crClientTest : ClusterRoleClient := ⟨[], noFail1, noFail1, noFail1, noFail1⟩

/-- A Role client whose Get on the application-controller Role fails with an
injected non-not-found API error `boom`. -/
def roleClientGetFail : RoleClient :=
  ⟨[], ["argocd"], none,
   (fun n ns =>
     if n == "argocd-argocd-application-controller" && ns == "argocd" then some "boom"
     else none),
   noFail2, noFail2, noFail2⟩

/-- A hook that always fails with the repository tests' `testErrorHook`
message. -/
def hookFail : Role → Except String Role := fun _ => .error "this is a test error"

/-- A pre-existing application-controller Role with legacy labels and
annotations, used to observe the update branch's frame condition. -/
def existingRoleTest : Role :=
  { name := "argocd-argocd-application-controller", ns := "argocd",
    labels := [("legacy", "label")], annotations := [("legacy", "note")],
    rules := [], ownerRef := false }

/-- A Role client whose store already holds `existingRoleTest`. -/
def roleClientWithExisting : RoleClient :=
  ⟨[existingRoleTest], ["argocd"], none, noFail2, noFail2, noFail2, noFail2⟩

/-- The owner-referenced application-controller Role created in the C1
witness scenario. -/
def createdRoleTest : Role :=
  { name := "argocd-argocd-application-controller", ns := "argocd",
    labels := [("app.kubernetes.io/managed-by", "argocd")], annotations := [],
    rules := policyRuleForApplicationController, ownerRef := true }

/-- The proxy environment values the repository's tests set. -/
def proxyEnvTest : ProxyEnv := ⟨"example.com:8888", "example.com:8443", ".example.com"⟩

/-- The empty proxy environment (no proxy variables set in the process). -/
def proxyEnvNone : ProxyEnv := ⟨"", "", ""⟩

/-! Branch-characterization lemmas for `reconcileRoleStep`, the namespace
loop and `reconcileClusterRole`, shared by the claim theorems below. -/

/-- A hook failure leaves the client untouched and aborts the step. -/
theorem step_hook_error (hook : Role → Except String Role) (env : Env) (name : String)
    (rules : List PolicyRule) (cr : ArgoCD) (c : RoleClient) (nsName : String) (e : String)
    (h : hook (newRole name rules cr) = .error e) :
    reconcileRoleStep hook env name rules cr c nsName = ⟨c, [], [], some e⟩ := by
  simp [reconcileRoleStep, h]

/-- A lookup failure other than not-found aborts the step with the wrapped
component-context message. -/
theorem step_get_apiErr (hook : Role → Except String Role) (env : Env) (name : String)
    (rules : List PolicyRule) (cr : ArgoCD) (c : RoleClient) (nsName : String)
    (role1 : Role) (m : String) (hhook : hook (newRole name rules cr) = .ok role1)
    (hget : c.get role1.name nsName = .apiErr m) :
    reconcileRoleStep hook env name rules cr c nsName
      = ⟨c, [], [], some (wrapRoleLookupErr name m)⟩ := by
  simp only [reconcileRoleStep, hhook]
  simp [hget]

/-- Not found while the component is a disabled Dex: the step issues no call. -/
theorem step_notFound_disabled (hook : Role → Except String Role) (env : Env) (name : String)
    (rules : List PolicyRule) (cr : ArgoCD) (c : RoleClient) (nsName : String)
    (role1 : Role) (hhook : hook (newRole name rules cr) = .ok role1)
    (hget : c.get role1.name nsName = .notFound)
    (hgate : (name == dexServer && isDexDisabled env) = true) :
    reconcileRoleStep hook env name rules cr c nsName
      = ⟨c, [{ role1 with ns := nsName }], [], none⟩ := by
  simp only [reconcileRoleStep, hhook]
  simp [hget, hgate]

/-- Not found, feature enabled, create succeeding: the owner-referenced Role
is created. -/
theorem step_notFound_enabled_ok (hook : Role → Except String Role) (env : Env) (name : String)
    (rules : List PolicyRule) (cr : ArgoCD) (c : RoleClient) (nsName : String)
    (role1 : Role) (hhook : hook (newRole name rules cr) = .ok role1)
    (hget : c.get role1.name nsName = .notFound)
    (hgate : (name == dexServer && isDexDisabled env) = false)
    (hce : c.createErr role1.name nsName = none) :
    reconcileRoleStep hook env name rules cr c nsName
      = ⟨{ c with store := c.store ++ [{ role1 with ns := nsName, ownerRef := true }] },
         [{ role1 with ns := nsName, ownerRef := true }],
         [.createRole { role1 with ns := nsName, ownerRef := true }], none⟩ := by
  simp only [reconcileRoleStep, hhook]
  simp [hget, hgate, RoleClient.create, hce]

/-- Not found, feature enabled, create failing: the create call is issued and
its error aborts the step verbatim. -/
theorem step_notFound_enabled_err (hook : Role → Except String Role) (env : Env) (name : String)
    (rules : List PolicyRule) (cr : ArgoCD) (c : RoleClient) (nsName : String)
    (role1 : Role) (m : String) (hhook : hook (newRole name rules cr) = .ok role1)
    (hget : c.get role1.name nsName = .notFound)
    (hgate : (name == dexServer && isDexDisabled env) = false)
    (hce : c.createErr role1.name nsName = some m) :
    reconcileRoleStep hook env name rules cr c nsName
      = ⟨c, [{ role1 with ns := nsName, ownerRef := true }],
         [.createRole { role1 with ns := nsName, ownerRef := true }], some m⟩ := by
  simp only [reconcileRoleStep, hhook]
  simp [hget, hgate, RoleClient.create, hce]

/-- Found while the component is a disabled Dex, delete succeeding: the
existing Role is deleted. -/
theorem step_found_disabled_ok (hook : Role → Except String Role) (env : Env) (name : String)
    (rules : List PolicyRule) (cr : ArgoCD) (c : RoleClient) (nsName : String)
    (role1 existing : Role) (hhook : hook (newRole name rules cr) = .ok role1)
    (hget : c.get role1.name nsName = .ok existing)
    (hgate : (name == dexServer && isDexDisabled env) = true)
    (hde : c.deleteErr existing.name existing.ns = none) :
    reconcileRoleStep hook env name rules cr c nsName
      = ⟨{ c with store := c.store.filter (fun x => !(x.name == existing.name && x.ns == existing.ns)) },
         [], [.deleteRole existing], none⟩ := by
  simp only [reconcileRoleStep, hhook]
  simp [hget, hgate, RoleClient.delete, hde]

/-- Found while the component is a disabled Dex, delete failing: the delete
call is issued and its error aborts the step verbatim. -/
theorem step_found_disabled_err (hook : Role → Except String Role) (env : Env) (name : String)
    (rules : List PolicyRule) (cr : ArgoCD) (c : RoleClient) (nsName : String)
    (role1 existing : Role) (m : String) (hhook : hook (newRole name rules cr) = .ok role1)
    (hget : c.get role1.name nsName = .ok existing)
    (hgate : (name == dexServer && isDexDisabled env) = true)
    (hde : c.deleteErr existing.name existing.ns = some m) :
    reconcileRoleStep hook env name rules cr c nsName
      = ⟨c, [], [.deleteRole existing], some m⟩ := by
  simp only [reconcileRoleStep, hhook]
  simp [hget, hgate, RoleClient.delete, hde]

/-- Found, feature enabled, update succeeding: the existing Role's rules are
overwritten with the freshly computed set and the object is updated. -/
theorem step_found_enabled_ok (hook : Role → Except String Role) (env : Env) (name : String)
    (rules : List PolicyRule) (cr : ArgoCD) (c : RoleClient) (nsName : String)
    (role1 existing : Role) (hhook : hook (newRole name rules cr) = .ok role1)
    (hget : c.get role1.name nsName = .ok existing)
    (hgate : (name == dexServer && isDexDisabled env) = false)
    (hue : c.updateErr existing.name existing.ns = none) :
    reconcileRoleStep hook env name rules cr c nsName
      = ⟨{ c with store := c.store.map (fun x =>
            if x.name == existing.name && x.ns == existing.ns
            then { existing with rules := role1.rules } else x) },
         [{ existing with rules := role1.rules }],
         [.updateRole { existing with rules := role1.rules }], none⟩ := by
  simp only [reconcileRoleStep, hhook]
  simp [hget, hgate, RoleClient.update, hue]

/-- Found, feature enabled, update failing: the update call is issued and
its error aborts the step verbatim. -/
theorem step_found_enabled_err (hook : Role → Except String Role) (env : Env) (name : String)
    (rules : List PolicyRule) (cr : ArgoCD) (c : RoleClient) (nsName : String)
    (role1 existing : Role) (m : String) (hhook : hook (newRole name rules cr) = .ok role1)
    (hget : c.get role1.name nsName = .ok existing)
    (hgate : (name == dexServer && isDexDisabled env) = false)
    (hue : c.updateErr existing.name existing.ns = some m) :
    reconcileRoleStep hook env name rules cr c nsName
      = ⟨c, [], [.updateRole { existing with rules := role1.rules }], some m⟩ := by
  simp only [reconcileRoleStep, hhook]
  simp [hget, hgate, RoleClient.update, hue]

/-- An erroring step aborts the namespace loop, keeping the step's client
state and the write trace accumulated so far. -/
theorem loop_cons_of_err (hook : Role → Except String Role) (env : Env) (name : String)
    (rules : List PolicyRule) (cr : ArgoCD) (nsName : String) (rest : List String)
    (c : RoleClient) (acc : List Role) (tr : List WriteAction) (e : String)
    (h : (reconcileRoleStep hook env name rules cr c nsName).err = some e) :
    reconcileRoleLoop hook env name rules cr (nsName :: rest) c acc tr
      = ⟨(reconcileRoleStep hook env name rules cr c nsName).client,
         tr ++ (reconcileRoleStep hook env name rules cr c nsName).trace, some e, []⟩ := by
  simp [reconcileRoleLoop, h]

/-- A ClusterRole hook failure leaves the client untouched and aborts. -/
theorem clusterRole_hook_error (hookCR : ClusterRole → Except String ClusterRole) (env : Env)
    (name : String) (rules : List PolicyRule) (cr : ArgoCD) (c : ClusterRoleClient) (e : String)
    (h : hookCR (newClusterRole name rules cr) = .error e) :
    reconcileClusterRole hookCR env name rules cr c = ⟨c, [], none, some e⟩ := by
  simp [reconcileClusterRole, h]

/-- A ClusterRole lookup failure other than not-found aborts with the
wrapped component-context message. -/
theorem clusterRole_get_apiErr (hookCR : ClusterRole → Except String ClusterRole) (env : Env)
    (name : String) (rules : List PolicyRule) (cr : ArgoCD) (c : ClusterRoleClient)
    (cRole1 : ClusterRole) (m : String)
    (hhook : hookCR (newClusterRole name rules cr) = .ok cRole1)
    (hget : c.get cRole1.name = .apiErr m) :
    reconcileClusterRole hookCR env name rules cr c
      = ⟨c, [], none, some (wrapClusterRoleLookupErr name m)⟩ := by
  simp only [reconcileClusterRole, hhook]
  simp [hget]

/-- Not found and the namespace not allowed: explicitly a no-op returning a
nil object and a nil error, with no write issued. -/
theorem clusterRole_notFound_notAllowed (hookCR : ClusterRole → Except String ClusterRole)
    (env : Env) (name : String) (rules : List PolicyRule) (cr : ArgoCD) (c : ClusterRoleClient)
    (cRole1 : ClusterRole) (hhook : hookCR (newClusterRole name rules cr) = .ok cRole1)
    (hget : c.get cRole1.name = .notFound)
    (hallow : allowedNamespace cr.ns env.clusterConfigNamespaces = false) :
    reconcileClusterRole hookCR env name rules cr c = ⟨c, [], none, none⟩ := by
  simp only [reconcileClusterRole, hhook]
  simp [hget, hallow]

/-- Not found and allowed, create succeeding: the owner-referenced
ClusterRole is created and returned. -/
theorem clusterRole_notFound_allowed_ok (hookCR : ClusterRole → Except String ClusterRole)
    (env : Env) (name : String) (rules : List PolicyRule) (cr : ArgoCD) (c : ClusterRoleClient)
    (cRole1 : ClusterRole) (hhook : hookCR (newClusterRole name rules cr) = .ok cRole1)
    (hget : c.get cRole1.name = .notFound)
    (hallow : allowedNamespace cr.ns env.clusterConfigNamespaces = true)
    (hce : c.createErr cRole1.name = none) :
    reconcileClusterRole hookCR env name rules cr c
      = ⟨{ c with store := c.store ++ [{ cRole1 with ownerRef := true }] },
         [.createClusterRole { cRole1 with ownerRef := true }],
         some { cRole1 with ownerRef := true }, none⟩ := by
  simp only [reconcileClusterRole, hhook]
  simp [hget, hallow, ClusterRoleClient.create, hce]

/-- Not found and allowed, create failing: the create call is issued and its
error propagates verbatim (the Go code returns the object pointer too). -/
theorem clusterRole_notFound_allowed_err (hookCR : ClusterRole → Except String ClusterRole)
    (env : Env) (name : String) (rules : List PolicyRule) (cr : ArgoCD) (c : ClusterRoleClient)
    (cRole1 : ClusterRole) (m : String) (hhook : hookCR (newClusterRole name rules cr) = .ok cRole1)
    (hget : c.get cRole1.name = .notFound)
    (hallow : allowedNamespace cr.ns env.clusterConfigNamespaces = true)
    (hce : c.createErr cRole1.name = some m) :
    reconcileClusterRole hookCR env name rules cr c
      = ⟨c, [.createClusterRole { cRole1 with ownerRef := true }],
         some { cRole1 with ownerRef := true }, some m⟩ := by
  simp only [reconcileClusterRole, hhook]
  simp [hget, hallow, ClusterRoleClient.create, hce]

/-- Found and not allowed, delete succeeding: the existing ClusterRole is
deleted and a nil object returned. -/
theorem clusterRole_found_notAllowed_ok (hookCR : ClusterRole → Except String ClusterRole)
    (env : Env) (name : String) (rules : List PolicyRule) (cr : ArgoCD) (c : ClusterRoleClient)
    (cRole1 existing : ClusterRole) (hhook : hookCR (newClusterRole name rules cr) = .ok cRole1)
    (hget : c.get cRole1.name = .ok existing)
    (hallow : allowedNamespace cr.ns env.clusterConfigNamespaces = false)
    (hde : c.deleteErr existing.name = none) :
    reconcileClusterRole hookCR env name rules cr c
      = ⟨{ c with store := c.store.filter (fun x => !(x.name == existing.name)) },
         [.deleteClusterRole existing], none, none⟩ := by
  simp only [reconcileClusterRole, hhook]
  simp [hget, hallow, ClusterRoleClient.delete, hde]

/-- Found and not allowed, delete failing: the delete call is issued and its
error propagates verbatim. -/
theorem clusterRole_found_notAllowed_err (hookCR : ClusterRole → Except String ClusterRole)
    (env : Env) (name : String) (rules : List PolicyRule) (cr : ArgoCD) (c : ClusterRoleClient)
    (cRole1 existing : ClusterRole) (m : String)
    (hhook : hookCR (newClusterRole name rules cr) = .ok cRole1)
    (hget : c.get cRole1.name = .ok existing)
    (hallow : allowedNamespace cr.ns env.clusterConfigNamespaces = false)
    (hde : c.deleteErr existing.name = some m) :
    reconcileClusterRole hookCR env name rules cr c
      = ⟨c, [.deleteClusterRole existing], none, some m⟩ := by
  simp only [reconcileClusterRole, hhook]
  simp [hget, hallow, ClusterRoleClient.delete, hde]

/-- Found and allowed, update succeeding: the rules are overwritten on the
existing object and it is updated and returned. -/
theorem clusterRole_found_allowed_ok (hookCR : ClusterRole → Except String ClusterRole)
    (env : Env) (name : String) (rules : List PolicyRule) (cr : ArgoCD) (c : ClusterRoleClient)
    (cRole1 existing : ClusterRole) (hhook : hookCR (newClusterRole name rules cr) = .ok cRole1)
    (hget : c.get cRole1.name = .ok existing)
    (hallow : allowedNamespace cr.ns env.clusterConfigNamespaces = true)
    (hue : c.updateErr existing.name = none) :
    reconcileClusterRole hookCR env name rules cr c
      = ⟨{ c with store := c.store.map (fun x =>
            if x.name == existing.name then { existing with rules := cRole1.rules } else x) },
         [.updateClusterRole { existing with rules := cRole1.rules }],
         some { existing with rules := cRole1.rules }, none⟩ := by
  simp only [reconcileClusterRole, hhook]
  simp [hget, hallow, ClusterRoleClient.update, hue]

/-- Found and allowed, update failing: the update call is issued and its
error propagates verbatim. -/
theorem clusterRole_found_allowed_err (hookCR : ClusterRole → Except String ClusterRole)
    (env : Env) (name : String) (rules : List PolicyRule) (cr : ArgoCD) (c : ClusterRoleClient)
    (cRole1 existing : ClusterRole) (m : String)
    (hhook : hookCR (newClusterRole name rules cr) = .ok cRole1)
    (hget : c.get cRole1.name = .ok existing)
    (hallow : allowedNamespace cr.ns env.clusterConfigNamespaces = true)
    (hue : c.updateErr existing.name = some m) :
    reconcileClusterRole hookCR env name rules cr c
      = ⟨c, [.updateClusterRole { existing with rules := cRole1.rules }],
         some { existing with rules := cRole1.rules }, some m⟩ := by
  simp only [reconcileClusterRole, hhook]
  simp [hget, hallow, ClusterRoleClient.update, hue]

/-- C3: For every input environment-variable list, `proxyEnvVars` returns a
list whose prefix is the input unchanged (no entry overwritten or
reordered), followed by, in order, the `HTTP_PROXY`, `HTTPS_PROXY` and
`no_proxy` entries whose process value is non-empty and whose name is not
already present in the input under any case variant; the two concrete
conjuncts are the test vectors of `Test_proxyEnvVars`. -/
theorem proxyEnvVars_appends_after_input (p : ProxyEnv) (vars : List EnvVar) :
    (proxyEnvVars p vars).take vars.length = vars ∧
    (proxyEnvVars p vars).drop vars.length
      = (proxyCandidates p).filter (fun c => !(c.value == "") && !containsEnvVarCI vars c.name) ∧
    proxyEnvVars proxyEnvTest []
      = [⟨"HTTP_PROXY", "example.com:8888"⟩, ⟨"HTTPS_PROXY", "example.com:8443"⟩,
         ⟨"no_proxy", ".example.com"⟩] ∧
    proxyEnvVars proxyEnvTest [⟨"TEST_VAR", "testing"⟩]
      = [⟨"TEST_VAR", "testing"⟩, ⟨"HTTP_PROXY", "example.com:8888"⟩,
         ⟨"HTTPS_PROXY", "example.com:8443"⟩, ⟨"no_proxy", ".example.com"⟩] := by
  refine ⟨?_, ?_, ?_, ?_⟩
  · simp [proxyEnvVars, List.take_left]
  · simp [proxyEnvVars, List.drop_left]
  · rfl
  · rfl

/-- C10 counterexample: a fully successful pass of `reconcileRoles` (one
managed namespace, no injected failures, Dex enabled, cluster-config
namespace not allowed) returns a nil error together with a nil Role object,
not a non-nil converged Role. -/
theorem reconcileRoles_success_gives_nil_object :
    (reconcileRoles hookId hookCRId envEnabled crTest ⟨roleClientTest, crClientTest⟩).err = none
      ∧ (reconcileRoles hookId hookCRId envEnabled crTest
          ⟨roleClientTest, crClientTest⟩).obj = none := by
  constructor <;> rfl

/-- C10 amended: `reconcileRoles` never propagates a converged Role to its
caller — its first return value is nil on every path, including a fully
successful pass (the Go named return `role` is never assigned and the
success path returns `nil, nil`). -/
theorem reconcileRoles_obj_always_none (hook : Role → Except String Role)
    (hookCR : ClusterRole → Except String ClusterRole) (env : Env) (cr : ArgoCD)
    (cl : Cluster) : (reconcileRoles hook hookCR env cr cl).obj = none := by
  unfold reconcileRoles
  dsimp only
  repeat' split
  all_goals rfl

/-- C1: For every managed namespace processed by `reconcileRole`, the
per-namespace outcome follows the four-quadrant rule: Role not found and the
component not a disabled Dex → an owner reference is set and the Role is
created; not found and a disabled Dex → no create/update/delete call is
issued for that namespace; found and a disabled Dex → the existing Role is
deleted; found otherwise → the existing Role's rules are overwritten and it
is updated. -/
theorem reconcileRole_four_quadrants (hook : Role → Except String Role) (env : Env)
    (name : String) (rules : List PolicyRule) (cr : ArgoCD) (c : RoleClient)
    (nsName : String) (role1 : Role)
    (hhook : hook (newRole name rules cr) = .ok role1) :
    (c.get role1.name nsName = .notFound →
      (name == dexServer && isDexDisabled env) = false →
      (reconcileRoleStep hook env name rules cr c nsName).trace
          = [.createRole { role1 with ns := nsName, ownerRef := true }]
        ∧ (c.createErr role1.name nsName = none →
            (reconcileRoleStep hook env name rules cr c nsName).client.store
              = c.store ++ [{ role1 with ns := nsName, ownerRef := true }]))
    ∧ (c.get role1.name nsName = .notFound →
        (name == dexServer && isDexDisabled env) = true →
        (reconcileRoleStep hook env name rules cr c nsName).trace = []
          ∧ (reconcileRoleStep hook env name rules cr c nsName).client = c
          ∧ (reconcileRoleStep hook env name rules cr c nsName).err = none)
    ∧ (∀ existing, c.get role1.name nsName = .ok existing →
        (name == dexServer && isDexDisabled env) = true →
        (reconcileRoleStep hook env name rules cr c nsName).trace = [.deleteRole existing]
          ∧ (c.deleteErr existing.name existing.ns = none →
              (reconcileRoleStep hook env name rules cr c nsName).client.store
                = c.store.filter (fun x => !(x.name == existing.name && x.ns == existing.ns))))
    ∧ (∀ existing, c.get role1.name nsName = .ok existing →
        (name == dexServer && isDexDisabled env) = false →
        (reconcileRoleStep hook env name rules cr c nsName).trace
            = [.updateRole { existing with rules := role1.rules }]
          ∧ (c.updateErr existing.name existing.ns = none →
              (reconcileRoleStep hook env name rules cr c nsName).client.store
                = c.store.map (fun x => if x.name == existing.name && x.ns == existing.ns
                    then { existing with rules := role1.rules } else x))) := by
  refine ⟨?_, ?_, ?_, ?_⟩
  · intro hget hgate
    constructor
    · cases hce : c.createErr role1.name nsName with
      | none =>
        rw [step_notFound_enabled_ok hook env name rules cr c nsName role1 hhook hget hgate hce]
      | some m =>
        rw [step_notFound_enabled_err hook env name rules cr c nsName role1 m hhook hget hgate hce]
    · intro hce
      rw [step_notFound_enabled_ok hook env name rules cr c nsName role1 hhook hget hgate hce]
  · intro hget hgate
    rw [step_notFound_disabled hook env name rules cr c nsName role1 hhook hget hgate]
    exact ⟨rfl, rfl, rfl⟩
  · intro existing hget hgate
    constructor
    · cases hde : c.deleteErr existing.name existing.ns with
      | none =>
        rw [step_found_disabled_ok hook env name rules cr c nsName role1 existing hhook hget
          hgate hde]
      | some m =>
        rw [step_found_disabled_err hook env name rules cr c nsName role1 existing m hhook hget
          hgate hde]
    · intro hde
      rw [step_found_disabled_ok hook env name rules cr c nsName role1 existing hhook hget
        hgate hde]
  · intro existing hget hgate
    constructor
    · cases hue : c.updateErr existing.name existing.ns with
      | none =>
        rw [step_found_enabled_ok hook env name rules cr c nsName role1 existing hhook hget
          hgate hue]
      | some m =>
        rw [step_found_enabled_err hook env name rules cr c nsName role1 existing m hhook hget
          hgate hue]
    · intro hue
      rw [step_found_enabled_ok hook env name rules cr c nsName role1 existing hhook hget
        hgate hue]

/-- C1 witness: with no hook, Dex enabled, an empty store and the
application-controller component, the step for namespace `argocd` issues
exactly one create of the owner-referenced Role and stores it. -/
theorem reconcileRole_four_quadrants_witness :
    (reconcileRoleStep hookId envEnabled applicationController
        policyRuleForApplicationController crTest roleClientTest "argocd").trace
      = [.createRole createdRoleTest]
    ∧ (reconcileRoleStep hookId envEnabled applicationController
        policyRuleForApplicationController crTest roleClientTest "argocd").client.store
      = roleClientTest.store ++ [createdRoleTest] := by
  have h := (reconcileRole_four_quadrants hookId envEnabled applicationController
    policyRuleForApplicationController crTest roleClientTest "argocd"
    (newRole applicationController policyRuleForApplicationController crTest) rfl).1 rfl rfl
  exact ⟨h.1, h.2 rfl⟩

/-- C2: `reconcileClusterRole` follows the four-quadrant rule gated on the
`ARGOCD_CLUSTER_CONFIG_NAMESPACES` allow-list: not found and not allowed →
nil object and nil error with no write issued; not found and allowed → owner
reference set and created; found and not allowed → existing ClusterRole
deleted; found and allowed → rules overwritten and updated. -/
theorem reconcileClusterRole_four_quadrants (hookCR : ClusterRole → Except String ClusterRole)
    (env : Env) (name : String) (rules : List PolicyRule) (cr : ArgoCD)
    (c : ClusterRoleClient) (cRole1 : ClusterRole)
    (hhook : hookCR (newClusterRole name rules cr) = .ok cRole1) :
    (c.get cRole1.name = .notFound →
      allowedNamespace cr.ns env.clusterConfigNamespaces = false →
      reconcileClusterRole hookCR env name rules cr c = ⟨c, [], none, none⟩)
    ∧ (c.get cRole1.name = .notFound →
        allowedNamespace cr.ns env.clusterConfigNamespaces = true →
        c.createErr cRole1.name = none →
        reconcileClusterRole hookCR env name rules cr c
          = ⟨{ c with store := c.store ++ [{ cRole1 with ownerRef := true }] },
             [.createClusterRole { cRole1 with ownerRef := true }],
             some { cRole1 with ownerRef := true }, none⟩)
    ∧ (∀ existing, c.get cRole1.name = .ok existing →
        allowedNamespace cr.ns env.clusterConfigNamespaces = false →
        c.deleteErr existing.name = none →
        reconcileClusterRole hookCR env name rules cr c
          = ⟨{ c with store := c.store.filter (fun x => !(x.name == existing.name)) },
             [.deleteClusterRole existing], none, none⟩)
    ∧ (∀ existing, c.get cRole1.name = .ok existing →
        allowedNamespace cr.ns env.clusterConfigNamespaces = true →
        c.updateErr existing.name = none →
        reconcileClusterRole hookCR env name rules cr c
          = ⟨{ c with store := c.store.map (fun x =>
                if x.name == existing.name then { existing with rules := cRole1.rules } else x) },
             [.updateClusterRole { existing with rules := cRole1.rules }],
             some { existing with rules := cRole1.rules }, none⟩) := by
  refine ⟨?_, ?_, ?_, ?_⟩
  · intro hget hallow
    exact clusterRole_notFound_notAllowed hookCR env name rules cr c cRole1 hhook hget hallow
  · intro hget hallow hce
    exact clusterRole_notFound_allowed_ok hookCR env name rules cr c cRole1 hhook hget hallow hce
  · intro existing hget hallow hde
    exact clusterRole_found_notAllowed_ok hookCR env name rules cr c cRole1 existing hhook hget
      hallow hde
  · intro existing hget hallow hue
    exact clusterRole_found_allowed_ok hookCR env name rules cr c cRole1 existing hhook hget
      hallow hue

/-- C2 witness: with the instance's namespace absent from the allow-list and
no existing ClusterRole, reconciling is a no-op returning a nil object and a
nil error with an empty write trace. -/
theorem reconcileClusterRole_four_quadrants_witness :
    reconcileClusterRole hookCRId envEnabled applicationController
        policyRuleForApplicationController crTest crClientTest
      = ⟨crClientTest, [], none, none⟩ := by
  exact (reconcileClusterRole_four_quadrants hookCRId envEnabled applicationController
    policyRuleForApplicationController crTest crClientTest
    (newClusterRole applicationController policyRuleForApplicationController crTest) rfl).1
    rfl rfl

/-- C7: in `reconcileRole`, a Get error other than not-found aborts the pass
with the error wrapped in the component-context message, while any Create,
Update or Delete error aborts the pass with the error returned verbatim; in
every abort case the resulting client state is exactly the state at entry to
the failing step (plus the failed call's own effect, which is none), so
Roles already created or updated for earlier namespaces of the same pass —
already recorded in that state — remain converged (no rollback). -/
theorem reconcileRole_error_propagation (hook : Role → Except String Role) (env : Env)
    (name : String) (rules : List PolicyRule) (cr : ArgoCD) (nsName : String)
    (rest : List String) (c : RoleClient) (acc : List Role) (tr : List WriteAction)
    (role1 : Role) (hhook : hook (newRole name rules cr) = .ok role1) :
    (∀ m, c.get role1.name nsName = .apiErr m →
      reconcileRoleLoop hook env name rules cr (nsName :: rest) c acc tr
        = ⟨c, tr, some (wrapRoleLookupErr name m), []⟩)
    ∧ (∀ m, c.get role1.name nsName = .notFound →
        (name == dexServer && isDexDisabled env) = false →
        c.createErr role1.name nsName = some m →
        reconcileRoleLoop hook env name rules cr (nsName :: rest) c acc tr
          = ⟨c, tr ++ [.createRole { role1 with ns := nsName, ownerRef := true }], some m, []⟩)
    ∧ (∀ existing m, c.get role1.name nsName = .ok existing →
        (name == dexServer && isDexDisabled env) = true →
        c.deleteErr existing.name existing.ns = some m →
        reconcileRoleLoop hook env name rules cr (nsName :: rest) c acc tr
          = ⟨c, tr ++ [.deleteRole existing], some m, []⟩)
    ∧ (∀ existing m, c.get role1.name nsName = .ok existing →
        (name == dexServer && isDexDisabled env) = false →
        c.updateErr existing.name existing.ns = some m →
        reconcileRoleLoop hook env name rules cr (nsName :: rest) c acc tr
          = ⟨c, tr ++ [.updateRole { existing with rules := role1.rules }], some m, []⟩) := by
  refine ⟨?_, ?_, ?_, ?_⟩
  · intro m hget
    have hs := step_get_apiErr hook env name rules cr c nsName role1 m hhook hget
    rw [loop_cons_of_err hook env name rules cr nsName rest c acc tr _ (by rw [hs])]
    rw [hs]
    simp
  · intro m hget hgate hce
    have hs := step_notFound_enabled_err hook env name rules cr c nsName role1 m hhook hget
      hgate hce
    rw [loop_cons_of_err hook env name rules cr nsName rest c acc tr _ (by rw [hs])]
    rw [hs]
  · intro existing m hget hgate hde
    have hs := step_found_disabled_err hook env name rules cr c nsName role1 existing m hhook
      hget hgate hde
    rw [loop_cons_of_err hook env name rules cr nsName rest c acc tr _ (by rw [hs])]
    rw [hs]
  · intro existing m hget hgate hue
    have hs := step_found_enabled_err hook env name rules cr c nsName role1 existing m hhook
      hget hgate hue
    rw [loop_cons_of_err hook env name rules cr nsName rest c acc tr _ (by rw [hs])]
    rw [hs]

/-- C7 witness: an injected non-not-found Get failure `boom` on the
application-controller Role aborts the pass with the wrapped
component-context message and an unchanged client. -/
theorem reconcileRole_error_propagation_witness :
    reconcileRoleLoop hookId envEnabled applicationController
        policyRuleForApplicationController crTest ["argocd"] roleClientGetFail [] []
      = ⟨roleClientGetFail, [], some (wrapRoleLookupErr applicationController "boom"), []⟩ := by
  exact (reconcileRole_error_propagation hookId envEnabled applicationController
    policyRuleForApplicationController crTest "argocd" [] roleClientGetFail [] []
    (newRole applicationController policyRuleForApplicationController crTest) rfl).1 "boom" rfl

/-- C8: a reconciler-hook failure aborts the pass before any write: in
`reconcileRole`'s loop the hook runs before the Get and before any Create,
Update or Delete for that object, and on hook error the loop returns
immediately with the write trace unchanged; `reconcileClusterRole` likewise
returns immediately with an empty write trace. -/
theorem hook_failure_aborts_before_write (hook : Role → Except String Role)
    (hookCR : ClusterRole → Except String ClusterRole) (env : Env) (name : String)
    (rules : List PolicyRule) (cr : ArgoCD) (c : RoleClient) (cc : ClusterRoleClient)
    (nsName : String) (rest : List String) (acc : List Role) (tr : List WriteAction)
    (e e2 : String) :
    (hook (newRole name rules cr) = .error e →
      reconcileRoleLoop hook env name rules cr (nsName :: rest) c acc tr
        = ⟨c, tr, some e, []⟩)
    ∧ (hookCR (newClusterRole name rules cr) = .error e2 →
        reconcileClusterRole hookCR env name rules cr cc = ⟨cc, [], none, some e2⟩) := by
  constructor
  · intro h
    have hs := step_hook_error hook env name rules cr c nsName e h
    rw [loop_cons_of_err hook env name rules cr nsName rest c acc tr e (by rw [hs])]
    rw [hs]
    simp
  · intro h
    exact clusterRole_hook_error hookCR env name rules cr cc e2 h

/-- C8 witness: a hook that always fails with `this is a test error` (the
repository's `testErrorHook`) aborts the Role loop with no write issued and
the error propagated. -/
theorem hook_failure_aborts_before_write_witness :
    reconcileRoleLoop hookFail envEnabled applicationController
        policyRuleForApplicationController crTest ["argocd"] roleClientTest [] []
      = ⟨roleClientTest, [], some "this is a test error", []⟩ := by
  exact (hook_failure_aborts_before_write hookFail hookCRId envEnabled applicationController
    policyRuleForApplicationController crTest roleClientTest crClientTest "argocd" [] [] []
    "this is a test error" "x").1 rfl

/-- C9: on the found-and-enabled update branch of `reconcileRole` and
`reconcileClusterRole`, the object passed to Update is the fetched existing
object with only its Rules replaced by the freshly computed rule set: name,
namespace, labels and annotations pass through unchanged. -/
theorem update_overwrites_only_rules (hook : Role → Except String Role)
    (hookCR : ClusterRole → Except String ClusterRole) (env : Env) (name : String)
    (rules : List PolicyRule) (cr : ArgoCD) (c : RoleClient) (cc : ClusterRoleClient)
    (nsName : String) (role1 : Role) (cRole1 : ClusterRole)
    (hhook : hook (newRole name rules cr) = .ok role1)
    (hhookCR : hookCR (newClusterRole name rules cr) = .ok cRole1) :
    (∀ existing, c.get role1.name nsName = .ok existing →
      (name == dexServer && isDexDisabled env) = false →
      (reconcileRoleStep hook env name rules cr c nsName).trace
          = [.updateRole { existing with rules := role1.rules }]
        ∧ ({ existing with rules := role1.rules } : Role).name = existing.name
        ∧ ({ existing with rules := role1.rules } : Role).ns = existing.ns
        ∧ ({ existing with rules := role1.rules } : Role).labels = existing.labels
        ∧ ({ existing with rules := role1.rules } : Role).annotations = existing.annotations
        ∧ ({ existing with rules := role1.rules } : Role).rules = role1.rules)
    ∧ (∀ existing, cc.get cRole1.name = .ok existing →
        allowedNamespace cr.ns env.clusterConfigNamespaces = true →
        (reconcileClusterRole hookCR env name rules cr cc).trace
            = [.updateClusterRole { existing with rules := cRole1.rules }]
          ∧ ({ existing with rules := cRole1.rules } : ClusterRole).name = existing.name
          ∧ ({ existing with rules := cRole1.rules } : ClusterRole).labels = existing.labels
          ∧ ({ existing with rules := cRole1.rules } : ClusterRole).annotations
              = existing.annotations
          ∧ ({ existing with rules := cRole1.rules } : ClusterRole).rules = cRole1.rules) := by
  constructor
  · intro existing hget hgate
    refine ⟨?_, rfl, rfl, rfl, rfl, rfl⟩
    cases hue : c.updateErr existing.name existing.ns with
    | none =>
      rw [step_found_enabled_ok hook env name rules cr c nsName role1 existing hhook hget
        hgate hue]
    | some m =>
      rw [step_found_enabled_err hook env name rules cr c nsName role1 existing m hhook hget
        hgate hue]
  · intro existing hget hallow
    refine ⟨?_, rfl, rfl, rfl, rfl⟩
    cases hue : cc.updateErr existing.name with
    | none =>
      rw [clusterRole_found_allowed_ok hookCR env name rules cr cc cRole1 existing hhookCR hget
        hallow hue]
    | some m =>
      rw [clusterRole_found_allowed_err hookCR env name rules cr cc cRole1 existing m hhookCR
        hget hallow hue]

/-- C9 witness: with an existing application-controller Role carrying legacy
labels and annotations, the update call receives that object with only its
rules replaced by the fresh set, labels untouched. -/
theorem update_overwrites_only_rules_witness :
    (reconcileRoleStep hookId envEnabled applicationController
        policyRuleForApplicationController crTest roleClientWithExisting "argocd").trace
      = [.updateRole { existingRoleTest with rules := policyRuleForApplicationController }]
    ∧ ({ existingRoleTest with rules := policyRuleForApplicationController } : Role).labels
      = existingRoleTest.labels := by
  have h := (update_overwrites_only_rules hookId hookCRId envEnabled applicationController
    policyRuleForApplicationController crTest roleClientWithExisting crClientTest "argocd"
    (newRole applicationController policyRuleForApplicationController crTest)
    (newClusterRole applicationController policyRuleForApplicationController crTest)
    rfl rfl).1 existingRoleTest rfl rfl
  exact ⟨h.1, h.2.2.2.1⟩

/-- find? over a filter that removes every key match finds nothing. -/
theorem find?_filter_not_key {α : Type} (l : List α) (k : α → Bool) :
    (l.filter (fun x => !(k x))).find? k = none := by
  rw [List.find?_eq_none]
  intro x hx
  have hm := (List.mem_filter.mp hx).2
  simp only [Bool.not_eq_true'] at hm
  simp [hm]

/-- Overwriting the pod spec of every key match preserves findability and
yields the overwritten object. -/
theorem find?_overwrite_spec (dname nsv : String) (spec : PodSpec) (l : List Deployment) :
    ∀ d0 : Deployment,
      l.find? (fun d => d.name == dname && d.ns == nsv) = some d0 →
      (l.map (fun d =>
          if d.name == dname && d.ns == nsv then { d with podSpec := spec } else d)).find?
        (fun d => d.name == dname && d.ns == nsv) = some { d0 with podSpec := spec } := by
  induction l with
  | nil => intro d0 h; simp at h
  | cons x xs ih =>
    intro d0 h
    by_cases hx : (x.name == dname && x.ns == nsv) = true
    · rw [@List.find?_cons_of_pos Deployment (fun d => d.name == dname && d.ns == nsv) x xs
        hx] at h
      cases h
      simp only [List.map_cons, if_pos hx]
      exact @List.find?_cons_of_pos Deployment (fun d => d.name == dname && d.ns == nsv)
        { x with podSpec := spec } _ hx
    · rw [@List.find?_cons_of_neg Deployment (fun d => d.name == dname && d.ns == nsv) x xs
        hx] at h
      simp only [List.map_cons, if_neg hx]
      rw [@List.find?_cons_of_neg Deployment (fun d => d.name == dname && d.ns == nsv) x _ hx]
      exact ih d0 h

/-- The upsert convergence step always leaves an object with exactly the
freshly built pod spec under the key. -/
theorem findDeployment_upsert (dname nsv : String) (spec : PodSpec) (store : List Deployment) :
    ∃ d, findDeployment (upsertDeployment dname nsv spec store) dname nsv = some d
      ∧ d.podSpec = spec := by
  unfold upsertDeployment findDeployment
  cases h : store.find? (fun d => d.name == dname && d.ns == nsv) with
  | none =>
    refine ⟨⟨dname, nsv, spec⟩, ?_, rfl⟩
    rw [List.find?_append, h]
    simp [List.find?]
  | some d0 =>
    exact ⟨{ d0 with podSpec := spec }, find?_overwrite_spec dname nsv spec store d0 h, rfl⟩

/-- A Dex Deployment carrying the canonical spec, used by the C4 witness. -/
def dexDeployTest : Deployment :=
  ⟨"argocd-dex-server", "argocd", canonicalDexPodSpec proxyEnvNone crTest⟩

/-- The original `cdk8s` plugin container of the repository's plugin test. -/
def cdk8sOld : Container :=
  ⟨"cdk8s", "docker.ui/cdk8s/cdk8s:latest", ["/var/run/argocd/argocd-cmp-server"], [],
   [⟨"var-files", "/var/run/argocd"⟩], []⟩

/-- The replacement plugin container (`newname`/`newimage:latest`) of the
repository's plugin-update test. -/
def cdk8sNew : Container :=
  ⟨"newname", "newimage:latest", ["/var/run/argocd/argocd-cmp-server"], [],
   [⟨"var-files", "/var/run/argocd"⟩], []⟩

/-- The test custom resource with the original plugin container. -/
def crPluginOld : ArgoCD := { crTest with repoPluginContainers := [cdk8sOld] }

/-- The test custom resource with the replacement plugin container. -/
def crPluginNew : ArgoCD := { crTest with repoPluginContainers := [cdk8sNew] }

/-- The test custom resource with the server insecure toggle set. -/
def crInsecure : ArgoCD := { crTest with serverInsecure := true }

/-- C4: with `DISABLE_DEX=true`, reconciling the Dex deployment leaves no
Dex Deployment behind — an existing one is deleted and none is created — so
a subsequent Get returns not-found whether or not one existed; with Dex
re-enabled and no Dex Deployment present, reconciling recreates it with the
canonical spec. -/
theorem dex_deployment_disable_enable (p : ProxyEnv) (env env2 : Env) (cr : ArgoCD)
    (store store2 : List Deployment) :
    (isDexDisabled env = true →
      findDeployment (reconcileDexDeployment p env cr store) (dexDeploymentName cr) cr.ns
        = none)
    ∧ (isDexDisabled env2 = false →
        findDeployment store2 (dexDeploymentName cr) cr.ns = none →
        findDeployment (reconcileDexDeployment p env2 cr store2) (dexDeploymentName cr) cr.ns
          = some ⟨dexDeploymentName cr, cr.ns, canonicalDexPodSpec p cr⟩) := by
  constructor
  · intro hd
    simp only [reconcileDexDeployment, hd, if_true]
    exact find?_filter_not_key store _
  · intro hd2 hfind
    simp only [reconcileDexDeployment, hd2, Bool.false_eq_true, if_false]
    unfold upsertDeployment
    unfold findDeployment at hfind ⊢
    rw [hfind, List.find?_append, hfind]
    simp [List.find?]

/-- C4 witness: with `DISABLE_DEX=true` and an existing canonical Dex
Deployment, reconciling deletes it (Get is not-found); with Dex enabled on
an empty store, reconciling recreates the canonical Deployment. -/
theorem dex_deployment_disable_enable_witness :
    findDeployment (reconcileDexDeployment proxyEnvNone envDexDisabled crTest [dexDeployTest])
        (dexDeploymentName crTest) crTest.ns = none
    ∧ findDeployment (reconcileDexDeployment proxyEnvNone envEnabled crTest [])
        (dexDeploymentName crTest) crTest.ns
      = some ⟨dexDeploymentName crTest, crTest.ns, canonicalDexPodSpec proxyEnvNone crTest⟩ := by
  constructor
  · exact (dex_deployment_disable_enable proxyEnvNone envDexDisabled envEnabled crTest
      [dexDeployTest] []).1 rfl
  · exact (dex_deployment_disable_enable proxyEnvNone envDexDisabled envEnabled crTest
      [dexDeployTest] []).2 rfl rfl

/-- C5: the repo-server Deployment's container list is always the default
container followed by the user-supplied plugin containers (proxy injector
applied uniformly); re-reconciling after renaming a plugin container and
changing its image replaces the container-slice entry wholesale — the
concrete conjuncts replay the repository's plugin-update test: container
count stays 2 and the slot holds the new name and image with no merge. -/
theorem repo_plugin_containers_replaced (p : ProxyEnv) (cr : ArgoCD)
    (store : List Deployment) :
    (∃ d, findDeployment (reconcileRepoDeployment p cr store) (repoDeploymentName cr) cr.ns
        = some d
      ∧ d.podSpec.containers
          = (repoServerContainer cr :: cr.repoPluginContainers).map
              (fun c => { c with env := proxyEnvVars p c.env }))
    ∧ ((findDeployment
          (reconcileRepoDeployment proxyEnvNone crPluginNew
            (reconcileRepoDeployment proxyEnvNone crPluginOld []))
          "argocd-repo-server" "argocd").map (fun d => d.podSpec.containers.length)
        = some 2)
    ∧ ((findDeployment
          (reconcileRepoDeployment proxyEnvNone crPluginNew
            (reconcileRepoDeployment proxyEnvNone crPluginOld []))
          "argocd-repo-server" "argocd").map (fun d => d.podSpec.containers.drop 1)
        = some [cdk8sNew]) := by
  refine ⟨?_, rfl, rfl⟩
  obtain ⟨d, hf, hs⟩ := findDeployment_upsert (repoDeploymentName cr) cr.ns
    (canonicalRepoPodSpec p cr) store
  exact ⟨d, hf, by rw [hs]; rfl⟩

/-- C6: toggling the server insecure flag false → true → false and
reconciling after each change reproduces command-argument lists
byte-identical to the respective initial states, and in the insecure state
`--insecure` (argument 1) precedes `--staticassets` (argument 2). -/
theorem server_insecure_toggle (p : ProxyEnv) (cr : ArgoCD) (store : List Deployment) :
    ((findDeployment
        (reconcileServerDeployment p { cr with serverInsecure := true }
          (reconcileServerDeployment p { cr with serverInsecure := false } store))
        (serverDeploymentName cr) cr.ns).map
          (fun d => d.podSpec.containers.map (fun c => c.command))
      = some [getArgoServerCommand { cr with serverInsecure := true }])
    ∧ ((findDeployment
          (reconcileServerDeployment p { cr with serverInsecure := false }
            (reconcileServerDeployment p { cr with serverInsecure := true }
              (reconcileServerDeployment p { cr with serverInsecure := false } store)))
          (serverDeploymentName cr) cr.ns).map
            (fun d => d.podSpec.containers.map (fun c => c.command))
        = some [getArgoServerCommand { cr with serverInsecure := false }])
    ∧ ((findDeployment
          (reconcileServerDeployment p { cr with serverInsecure := false } store)
          (serverDeploymentName cr) cr.ns).map
            (fun d => d.podSpec.containers.map (fun c => c.command))
        = some [getArgoServerCommand { cr with serverInsecure := false }])
    ∧ (cr.serverInsecure = true →
        (getArgoServerCommand cr)[1]? = some "--insecure"
          ∧ (getArgoServerCommand cr)[2]? = some "--staticassets") := by
  refine ⟨?_, ?_, ?_, ?_⟩
  · simp only [reconcileServerDeployment, serverDeploymentName]
    obtain ⟨d, hf, hs⟩ := findDeployment_upsert (cr.name ++ "-server") cr.ns
      (canonicalServerPodSpec p { cr with serverInsecure := true })
      (upsertDeployment (cr.name ++ "-server") cr.ns
        (canonicalServerPodSpec p { cr with serverInsecure := false }) store)
    rw [hf, Option.map_some', hs]
    rfl
  · simp only [reconcileServerDeployment, serverDeploymentName]
    obtain ⟨d, hf, hs⟩ := findDeployment_upsert (cr.name ++ "-server") cr.ns
      (canonicalServerPodSpec p { cr with serverInsecure := false })
      (upsertDeployment (cr.name ++ "-server") cr.ns
        (canonicalServerPodSpec p { cr with serverInsecure := true })
        (upsertDeployment (cr.name ++ "-server") cr.ns
          (canonicalServerPodSpec p { cr with serverInsecure := false }) store))
    rw [hf, Option.map_some', hs]
    rfl
  · simp only [reconcileServerDeployment, serverDeploymentName]
    obtain ⟨d, hf, hs⟩ := findDeployment_upsert (cr.name ++ "-server") cr.ns
      (canonicalServerPodSpec p { cr with serverInsecure := false }) store
    rw [hf, Option.map_some', hs]
    rfl
  · intro h
    constructor <;> simp [getArgoServerCommand, h]

/-- C6 witness: for the test instance with the insecure toggle set,
`--insecure` is the second command argument and `--staticassets` the third. -/
theorem server_insecure_toggle_witness :
    (getArgoServerCommand crInsecure)[1]? = some "--insecure"
      ∧ (getArgoServerCommand crInsecure)[2]? = some "--staticassets" := by
  exact (server_insecure_toggle proxyEnvNone crInsecure []).2.2.2 rfl

end ArgoCDOperator
